import Mathlib

/-!
Verification of the bench-executor tool adapters (`src/bench_executor/burp.py`
and `src/bench_executor/morphrdb.py`) against their natural-language
specification.  The Python code is shallowly embedded: pure computations become
Lean functions, the filesystem interactions of `MorphRDB.execute_mapping` become
explicit state passing over the content of the single file the adapter touches
(`<data_path>/morphrdb/config.properties`), and raised exceptions become
`Except` errors.  Container launches are recorded as a list of launched command
strings so that claims of the form "no process is launched" are expressible.
-/

namespace BenchExec

/-- TIMEOUT constant, `6 * 3600` seconds, defined identically in burp.py:17 and
morphrdb.py:11. -/
def TIMEOUT : Nat := 6 * 3600

/-- A Python value appearing in a BURP argument list: the list is declared as
`list` and the code appends both strings and (for `base_iri`) an int
(burp.py:130-138). -/
inductive PyVal where
  | str (s : String)
  | int (n : Int)
deriving DecidableEq, Repr

/-- Whether a Python value is a string. -/
def PyVal.isStr : PyVal → Bool
  | .str _ => true
  | .int _ => false

/-- The Python exceptions relevant to the two adapters. -/
inductive PyError where
  | timeoutError
  | typeError
  | notImplementedError (msg : String)
  | valueError (msg : String)
  | fileNotFoundError
  | fileExistsError
deriving DecidableEq, Repr

deriving instance DecidableEq for Except

/-- String prefix test on the character lists (the behaviour of
`str.startswith`). -/
def strStartsWith (s pre : String) : Bool :=
  pre.data.isPrefixOf s.data

/-- String suffix test on the character lists (the behaviour of
`str.endswith`). -/
def strEndsWith (s suf : String) : Bool :=
  suf.data.isSuffixOf s.data

/-- Embedding of `os.path.join(a, b)` for two components: an absolute second
component discards the first, otherwise a separator is inserted unless `a`
already ends with one. -/
def ospath_join (a b : String) : String :=
  if strStartsWith b "/" then b
  else if strEndsWith a "/" then a ++ b
  else a ++ "/" ++ b

/-- Embedding of `os.path.basename(p)`: the part after the last separator. -/
def ospath_basename (p : String) : String :=
  ⟨(p.data.reverse.takeWhile (fun c => !(c == '/'))).reverse⟩

/-- Embedding of `int(psutil.virtual_memory().total * (1/2))` (burp.py:73 and
morphrdb.py:34).  For totals below `2 ^ 53` bytes the Python float product is
exact and truncation agrees with natural-number division by two. -/
def max_heap (total : Nat) : Nat := total / 2

/-- Embedding of Python `" ".join(arguments)` (burp.py:80): raises `TypeError`
as soon as a non-string item is encountered. -/
def joinSpace : List PyVal → Except PyError String
  | [] => .ok ""
  | [.str s] => .ok s
  | .str s :: x :: rest => do
      let r ← joinSpace (x :: rest)
      .ok (s ++ " " ++ r)
  | .int _ :: _ => .error .typeError

/-- The environment of one adapter execution: the host's total memory as
reported by psutil, the wall-clock duration the underlying container run would
take, and the success flag `run_and_wait_for_exit` would report. -/
structure Env where
  totalMemory : Nat
  elapsed : Nat
  runResult : Bool
deriving DecidableEq, Repr

/-- The command string built by `BURP._execute_with_timeout` (burp.py:76-80)
from the joined argument string. -/
def burpBuildCmd (total : Nat) (verbose : Bool) (joined : String) : String :=
  "java -Xmx" ++ toString (max_heap total) ++ " -Xms" ++ toString (max_heap total)
    ++ " -jar burp/burp.jar"
    ++ (if verbose then " -vvvvvvvvvvvvv" else "")
    ++ " " ++ joined

/-- Embedding of `BURP._execute_with_timeout` (burp.py:63-85).  The method is
decorated with `timeout(TIMEOUT)`, so a run lasting longer than `TIMEOUT`
raises `TimeoutError`.  The returned list records the commands handed to
`run_and_wait_for_exit`; building the command string joins the arguments and
can raise `TypeError` before any launch. -/
def burpExecuteWithTimeout (env : Env) (verbose : Bool) (arguments : List PyVal) :
    List String × Except PyError Bool :=
  match joinSpace arguments with
  | .error e => ([], .error e)
  | .ok joined =>
      let cmd := burpBuildCmd env.totalMemory verbose joined
      if TIMEOUT < env.elapsed then ([cmd], .error .timeoutError)
      else ([cmd], .ok env.runResult)

/-- Embedding of `BURP.execute` (burp.py:87-106): only `TimeoutError` is
caught; it is logged and turned into `False`.  Every other exception
propagates. -/
def burpExecute (env : Env) (verbose : Bool) (arguments : List PyVal) :
    List String × Except PyError Bool :=
  match burpExecuteWithTimeout env verbose arguments with
  | (cmds, .error .timeoutError) => (cmds, .ok false)
  | (cmds, r) => (cmds, r)

/-- The argument list built by `BURP.execute_mapping` (burp.py:130-138).
`base_iri` has Python type `Optional[int]` and is appended without
conversion. -/
def burpBuildArguments (mapping_file : String) (output_file : Option String)
    (base_iri : Option Int) : List PyVal :=
  [.str "-m", .str (ospath_join "/data/shared/" mapping_file)]
    ++ (match output_file with
        | some o => [.str "-o", .str (ospath_join "/data/shared/" o)]
        | none => [])
    ++ (match base_iri with
        | some b => [.str "-b", .int b]
        | none => [])

/-- Embedding of `BURP.execute_mapping` (burp.py:108-140).  The
`serialization` parameter is accepted but never inspected by the source. -/
def burpExecuteMapping (env : Env) (verbose : Bool)
    (mapping_file serialization : String) (output_file : Option String)
    (base_iri : Option Int) : List String × Except PyError Bool :=
  burpExecute env verbose (burpBuildArguments mapping_file output_file base_iri)

/-- The command string built by `MorphRDB._execute_with_timeout`
(morphrdb.py:37-40). -/
def morphCmd (total : Nat) : String :=
  "java -Xmx" ++ toString (max_heap total) ++ " -Xms" ++ toString (max_heap total)
    ++ " " ++ "-cp .:morph-rdb-dist-3.12.6.jar:dependency/* "
    ++ "es.upm.fi.dia.oeg.morph.r2rml.rdb.engine.MorphRDBRunner "
    ++ "/data config.properties"

/-- Embedding of `MorphRDB._execute_with_timeout` (morphrdb.py:32-43).  Unlike
burp.py:63, the method carries no `timeout` decorator, so however long the run
takes it returns the run result and never raises `TimeoutError`.  The
`arguments` parameter is accepted but unused, as in the source. -/
def morphExecuteWithTimeout (env : Env) (arguments : List PyVal) :
    List String × Except PyError Bool :=
  ([morphCmd env.totalMemory], .ok env.runResult)

/-- Embedding of `MorphRDB.execute` (morphrdb.py:45-52): the same
catch-`TimeoutError`-and-return-`False` structure as `BURP.execute`. -/
def morphExecute (env : Env) (arguments : List PyVal) :
    List String × Except PyError Bool :=
  match morphExecuteWithTimeout env arguments with
  | (cmds, .error .timeoutError) => (cmds, .ok false)
  | (cmds, r) => (cmds, r)

/-- Embedding of `MorphRDB.execute_mapping`'s serialization translation
(morphrdb.py:60-66): the canonical tokens are mapped to Morph-RDB's
vocabulary, anything else raises `NotImplementedError`. -/
def morphSerialization (serialization : String) : Except PyError String :=
  if serialization = "nquads" then .ok "N-QUADS"
  else if serialization = "ntriples" then .ok "N-TRIPLE"
  else .error (.notImplementedError
    ("Unsupported serialization: \"" ++ serialization ++ "\""))

/-- The key-value pairs of the generated `[root]` section, in insertion order
(morphrdb.py:68-97).  `serformatted` is the already-translated serialization
token.  Database keys are added only when all six credential fields are
non-`None`; an unknown `rdb_type` raises `ValueError` (morphrdb.py:94). -/
def morphConfigPairs (mapping_file output_file serformatted : String)
    (rdb_username rdb_password rdb_host rdb_port rdb_name rdb_type : Option String) :
    Except PyError (List (String × String)) :=
  let mf := ospath_join "shared" (ospath_basename mapping_file)
  let ouf := ospath_join "shared" (ospath_basename output_file)
  let base := [("mappingdocument.file.path", mf),
               ("output.file.path", ouf),
               ("output.rdflanguage", serformatted)]
  match rdb_username, rdb_password, rdb_host, rdb_port, rdb_name, rdb_type with
  | some u, some p, some h, some po, some n, some t =>
      if t = "MySQL" then
        .ok (base ++ [("database.name[0]", n),
                      ("database.driver[0]", "com.mysql.jdbc.Driver"),
                      ("database.type[0]", "mysql"),
                      ("database.url[0]",
                        "jdbc:mysql://" ++ h ++ ":" ++ po ++ "/" ++ n
                          ++ "?allowPublicKeyRetrieval=true&useSSL=false"),
                      ("database.user[0]", u),
                      ("database.pwd[0]", p),
                      ("no_of_database", "1")])
      else if t = "PostgreSQL" then
        .ok (base ++ [("database.name[0]", n),
                      ("database.driver[0]", "org.postgresql.Driver"),
                      ("database.type[0]", "postgresql"),
                      ("database.url[0]",
                        "jdbc:postgresql://" ++ h ++ ":" ++ po ++ "/" ++ n),
                      ("database.user[0]", u),
                      ("database.pwd[0]", p),
                      ("no_of_database", "1")])
      else .error (.valueError ("Unknown RDB type: \"" ++ t ++ "\""))
  | _, _, _, _, _, _ => .ok base

/-- The `key=value` lines of a section body as serialized by
`configparser.ConfigParser.write` with `space_around_delimiters=False`
(morphrdb.py:102-103), for values without newlines or percent signs (the only
case the adapter produces; interpolation is not modelled). -/
def kvLines : List (String × String) → String
  | [] => ""
  | (k, v) :: rest => k ++ "=" ++ v ++ "\n" ++ kvLines rest

/-- The full section body written by configparser: the option lines followed by
the blank line configparser emits after every section. -/
def configWriteBody (pairs : List (String × String)) : String :=
  kvLines pairs ++ "\n"

/-- The complete text `config.write` produces for the single synthetic `[root]`
section (morphrdb.py:72-76, 102-103). -/
def configWrite (pairs : List (String × String)) : String :=
  "[root]\n" ++ configWriteBody pairs

/-- Embedding of Python `str.replace` for a non-empty pattern: scan left to
right, replacing non-overlapping occurrences (morphrdb.py:111 uses pattern
`[root]\n`).  An empty pattern is returned unchanged (Python would interleave
the replacement; the adapter never calls it that way). -/
def replaceAll (pat rep : List Char) : List Char → List Char
  | [] => []
  | c :: cs =>
      if pat ≠ [] ∧ pat.isPrefixOf (c :: cs) then
        rep ++ replaceAll pat rep (List.drop (pat.length - 1) cs)
      else
        c :: replaceAll pat rep cs
termination_by l => l.length
decreasing_by
  all_goals simp only [List.length_drop, List.length_cons]
  all_goals omega

/-- Python `s.replace(pat, rep)` on strings, via `replaceAll` on the character
lists. -/
def pyReplace (s pat rep : String) : String :=
  ⟨replaceAll pat.data rep.data s.data⟩

/-- Writing a file in mode `w` truncates: the new content replaces whatever the
file held before. -/
def fsWrite (fs : Option String) (content : String) : Option String :=
  some content

/-- Reading a file: its current content, or `FileNotFoundError` if absent. -/
def fsRead (fs : Option String) : Except PyError String :=
  match fs with
  | some c => .ok c
  | none => .error .fileNotFoundError

/-- Embedding of `MorphRDB.execute_mapping` (morphrdb.py:54-113).  `fs` is the
content of `<data_path>/morphrdb/config.properties`, the only file the method
touches.  The result is the final file state, the list of launched commands,
and the outcome (`Except.error` models an uncaught exception).  The
`os.makedirs(..., exist_ok=True)` call at morphrdb.py:100-101 only re-creates
the directory made at construction and cannot fail, so it does not appear in
the single-file state.  The raise points for an unsupported serialization and
an unknown RDB type both precede the file writes and the launch, as in the
source. -/
def morphExecuteMappingFS (env : Env) (fs : Option String)
    (mapping_file output_file serialization : String)
    (rdb_username rdb_password rdb_host rdb_port rdb_name rdb_type : Option String) :
    Option String × List String × Except PyError Bool :=
  match morphSerialization serialization with
  | .error e => (fs, [], .error e)
  | .ok serformatted =>
      match morphConfigPairs mapping_file output_file serformatted
          rdb_username rdb_password rdb_host rdb_port rdb_name rdb_type with
      | .error e => (fs, [], .error e)
      | .ok pairs =>
          let fs1 := fsWrite fs (configWrite pairs)
          match fsRead fs1 with
          | .error e => (fs1, [], .error e)
          | .ok data =>
              let fs2 := fsWrite fs1 (pyReplace data "[root]\n" "")
              match morphExecute env [] with
              | (cmds, r) => (fs2, cmds, r)

/-- Embedding of `os.makedirs(p, exist_ok=ok)` over the set of existing
directories: with `exist_ok=True` a pre-existing directory is tolerated,
without it `FileExistsError` is raised. -/
def makedirs (dirs : List String) (p : String) (exist_ok : Bool) :
    Except PyError (List String) :=
  if p ∈ dirs then
    if exist_ok then .ok dirs else .error .fileExistsError
  else .ok (dirs ++ [p])

/-- Embedding of `BURP.__init__` (burp.py:40-49): creates the engine-private
directory with `exist_ok=True` and declares the two volume bindings.
`data_path` is taken to be already absolute, making `os.path.abspath` the
identity. -/
def burpInit (dirs : List String) (data_path : String) :
    Except PyError (List String × List String) :=
  match makedirs dirs (ospath_join data_path "burp") true with
  | .error e => .error e
  | .ok dirs1 =>
      .ok (dirs1, [data_path ++ "/burp:/data",
                   data_path ++ "/shared:/data/shared"])

/-- Embedding of `MorphRDB.__init__` (morphrdb.py:17-26): creates the
engine-private directory with `exist_ok=True` and declares the two volume
bindings. -/
def morphInit (dirs : List String) (data_path : String) :
    Except PyError (List String × List String) :=
  match makedirs dirs (ospath_join data_path "morphrdb") true with
  | .error e => .error e
  | .ok dirs1 =>
      .ok (dirs1, [data_path ++ "/shared:/data/shared",
                   data_path ++ "/morphrdb:/data"])

/-- The pattern `pat` occurs somewhere in `l`. -/
def occursIn (pat l : List Char) : Prop :=
  ∃ s t, l = s ++ pat ++ t

/-- A value string is safe for the configparser embedding: no `[`, no newline,
no percent sign.  All values the adapters are exercised with in practice are of
this shape. -/
def safeVal (s : String) : Bool :=
  s.data.all (fun c => !(c == '[') && !(c == '\n') && !(c == '%'))

/-- An optional value that is safe when present. -/
def safeOpt : Option String → Bool
  | none => true
  | some s => safeVal s

/-- Every `[` in the list is immediately followed by `0` (and the list does not
end in `[`).  This is the shape of the flat config body: the only brackets come
from the fixed option names `database.*[0]`. -/
def brZero : List Char → Bool
  | [] => true
  | c :: cs => (!(c == '[') || (cs.head? == some '0')) && brZero cs

/-- A string free of `[` characters. -/
def noBr (s : String) : Prop := ∀ c ∈ s.data, c ≠ '['

instance (s : String) : Decidable (noBr s) :=
  inferInstanceAs (Decidable (∀ c ∈ s.data, c ≠ '['))

theorem string_data_append (a b : String) : (a ++ b).data = a.data ++ b.data := by
  cases a
  cases b
  rfl

theorem string_mk_data (s : String) : String.mk s.data = s := by
  cases s
  rfl

theorem safeVal_no_bracket {s : String} (h : safeVal s = true) :
    ∀ c ∈ s.data, c ≠ '[' := by
  intro c hc
  have := List.all_eq_true.mp h c hc
  simp only [Bool.and_eq_true, Bool.not_eq_true', beq_eq_false_iff_ne] at this
  exact this.1.1

theorem joinSpace_error_of_int {args : List PyVal} {n : Int}
    (h : PyVal.int n ∈ args) : joinSpace args = .error .typeError := by
  induction args with
  | nil => cases h
  | cons a rest ih =>
      cases a with
      | int m =>
          cases rest with
          | nil => rfl
          | cons b tl => rfl
      | str s =>
          have hrest : PyVal.int n ∈ rest := by
            rcases List.mem_cons.mp h with h1 | h1
            · cases h1
            · exact h1
          cases rest with
          | nil => cases hrest
          | cons b tl =>
              have := ih hrest
              simp only [joinSpace, this]
              rfl

theorem isPrefixOf_exists {pat l : List Char} (h : pat.isPrefixOf l = true) :
    ∃ t, l = pat ++ t := by
  induction pat generalizing l with
  | nil => exact ⟨l, rfl⟩
  | cons p ps ih =>
      cases l with
      | nil => simp [List.isPrefixOf] at h
      | cons c cs =>
          simp only [List.isPrefixOf, Bool.and_eq_true, beq_iff_eq] at h
          obtain ⟨t, ht⟩ := ih h.2
          exact ⟨t, by simp [h.1, ht]⟩

theorem isPrefixOf_self_append (pat t : List Char) :
    pat.isPrefixOf (pat ++ t) = true := by
  induction pat with
  | nil => simp [List.isPrefixOf]
  | cons p ps ih => simp [List.isPrefixOf, ih]

theorem replaceAll_nil (pat rep : List Char) : replaceAll pat rep [] = [] := by
  simp [replaceAll]

theorem replaceAll_of_not_occurs {pat : List Char} (rep : List Char) :
    ∀ l, ¬ occursIn pat l → replaceAll pat rep l = l := by
  intro l
  induction l with
  | nil => intro _; exact replaceAll_nil pat rep
  | cons c cs ih =>
      intro h
      rw [replaceAll, if_neg, ih]
      · intro hocc
        obtain ⟨s, t, hst⟩ := hocc
        exact h ⟨c :: s, t, by simp [hst]⟩
      · rintro ⟨hne, hpre⟩
        obtain ⟨t, ht⟩ := isPrefixOf_exists hpre
        exact h ⟨[], t, by simp [ht]⟩

theorem replaceAll_cons_pat {pat : List Char} (rep rest : List Char)
    (hne : pat ≠ []) :
    replaceAll pat rep (pat ++ rest) = rep ++ replaceAll pat rep rest := by
  cases pat with
  | nil => exact absurd rfl hne
  | cons p ps =>
      have hpre : (p :: ps).isPrefixOf ((p :: ps) ++ rest) = true :=
        isPrefixOf_self_append (p :: ps) rest
      rw [List.cons_append, replaceAll, if_pos ⟨hne, by simpa using hpre⟩]
      congr 1
      congr 1
      simp

theorem brZero_append {x y : List Char} (hx : brZero x = true)
    (hy : brZero y = true) : brZero (x ++ y) = true := by
  induction x with
  | nil => exact hy
  | cons c cs ih =>
      simp only [brZero, Bool.and_eq_true, Bool.or_eq_true] at hx
      obtain ⟨h1, h2⟩ := hx
      simp only [List.cons_append, brZero, Bool.and_eq_true, Bool.or_eq_true]
      refine ⟨?_, ih h2⟩
      rcases h1 with h1 | h1
      · exact Or.inl h1
      · right
        cases cs with
        | nil => simp at h1
        | cons d cs2 => simpa using h1

theorem brZero_of_no_bracket {l : List Char} (h : ∀ c ∈ l, c ≠ '[') :
    brZero l = true := by
  induction l with
  | nil => rfl
  | cons c cs ih =>
      simp only [brZero, Bool.and_eq_true, Bool.or_eq_true]
      refine ⟨Or.inl ?_, ih fun d hd => h d (List.mem_cons_of_mem c hd)⟩
      simpa using h c (List.mem_cons_self c cs)

theorem brZero_bracket_r_false (t : List Char) :
    ∀ a, brZero (a ++ '[' :: 'r' :: t) = false := by
  intro a
  induction a with
  | nil => simp [brZero]
  | cons c cs ih =>
      simp [brZero, ih]

theorem not_occurs_bracket_r {l t : List Char} (h : brZero l = true) :
    ¬ occursIn ('[' :: 'r' :: t) l := by
  rintro ⟨s, u, rfl⟩
  rw [show s ++ '[' :: 'r' :: t ++ u = s ++ '[' :: 'r' :: (t ++ u) by simp,
    brZero_bracket_r_false] at h
  cases h

theorem brZero_kvLines {pairs : List (String × String)}
    (h : ∀ kv ∈ pairs, brZero kv.1.data = true ∧ (∀ c ∈ kv.2.data, c ≠ '[')) :
    brZero (kvLines pairs).data = true := by
  induction pairs with
  | nil => rfl
  | cons kv rest ih =>
      obtain ⟨k, v⟩ := kv
      have hk := (h (k, v) (List.mem_cons_self _ _)).1
      have hv := (h (k, v) (List.mem_cons_self _ _)).2
      have hrest := ih fun x hx => h x (List.mem_cons_of_mem _ hx)
      show brZero (k ++ "=" ++ v ++ "\n" ++ kvLines rest).data = true
      rw [string_data_append, string_data_append, string_data_append,
        string_data_append]
      exact brZero_append (brZero_append (brZero_append (brZero_append hk
        (by decide)) (brZero_of_no_bracket hv)) (by decide)) hrest

theorem noBr_of_safe {s : String} (h : safeVal s = true) : noBr s :=
  safeVal_no_bracket h

theorem pair_safe {k v : String} (hk : brZero k.data = true) (hv : noBr v) :
    brZero (k, v).1.data = true ∧ noBr (k, v).2 := ⟨hk, hv⟩

theorem noBr_append {a b : String} (ha : noBr a) (hb : noBr b) : noBr (a ++ b) := by
  intro c hc
  rw [string_data_append] at hc
  rcases List.mem_append.mp hc with h | h
  · exact ha c h
  · exact hb c h

theorem noBr_join {a b : String} (ha : noBr a) (hb : noBr b) :
    noBr (ospath_join a b) := by
  unfold ospath_join
  split
  · exact hb
  · split
    · exact noBr_append ha hb
    · exact noBr_append (noBr_append ha (by decide)) hb

theorem morphSerialization_ok {s sf : String}
    (h : morphSerialization s = .ok sf) : sf = "N-QUADS" ∨ sf = "N-TRIPLE" := by
  unfold morphSerialization at h
  split_ifs at h
  · exact Or.inl (Except.ok.inj h).symm
  · exact Or.inr (Except.ok.inj h).symm

/-- Safety of the three always-present config options. -/
theorem baseTriple_safe {mf ouf sf : String}
    (h1 : noBr mf) (h2 : noBr ouf) (h3 : noBr sf) :
    ∀ kv ∈ [("mappingdocument.file.path", mf), ("output.file.path", ouf),
            ("output.rdflanguage", sf)],
      brZero kv.1.data = true ∧ noBr kv.2 := by
  intro kv hkv
  rcases List.mem_cons.mp hkv with rfl | hkv
  · exact pair_safe (by decide) h1
  rcases List.mem_cons.mp hkv with rfl | hkv
  · exact pair_safe (by decide) h2
  rcases List.mem_cons.mp hkv with rfl | hkv
  · exact pair_safe (by decide) h3
  cases hkv

/-- Every option the adapter generates has a bracket-disciplined key and a
bracket-free value, provided the request's path basenames and credential
values are safe. -/
theorem morphConfigPairs_safe {mapping_file output_file sf : String}
    {u p h po n t : Option String} {pairs : List (String × String)}
    (hm : safeVal (ospath_basename mapping_file) = true)
    (ho : safeVal (ospath_basename output_file) = true)
    (hsf : noBr sf)
    (hu : safeOpt u = true) (hp : safeOpt p = true) (hh : safeOpt h = true)
    (hpo : safeOpt po = true) (hn : safeOpt n = true) (ht : safeOpt t = true)
    (hok : morphConfigPairs mapping_file output_file sf u p h po n t = .ok pairs) :
    ∀ kv ∈ pairs, brZero kv.1.data = true ∧ noBr kv.2 := by
  have hshared : noBr "shared" := by decide
  have hmf : noBr (ospath_join "shared" (ospath_basename mapping_file)) :=
    noBr_join hshared (noBr_of_safe hm)
  have houf : noBr (ospath_join "shared" (ospath_basename output_file)) :=
    noBr_join hshared (noBr_of_safe ho)
  unfold morphConfigPairs at hok
  rcases u with _ | u0
  · exact (Except.ok.inj hok) ▸ baseTriple_safe hmf houf hsf
  rcases p with _ | p0
  · exact (Except.ok.inj hok) ▸ baseTriple_safe hmf houf hsf
  rcases h with _ | h0
  · exact (Except.ok.inj hok) ▸ baseTriple_safe hmf houf hsf
  rcases po with _ | po0
  · exact (Except.ok.inj hok) ▸ baseTriple_safe hmf houf hsf
  rcases n with _ | n0
  · exact (Except.ok.inj hok) ▸ baseTriple_safe hmf houf hsf
  rcases t with _ | t0
  · exact (Except.ok.inj hok) ▸ baseTriple_safe hmf houf hsf
  have hu0 : noBr u0 := noBr_of_safe hu
  have hp0 : noBr p0 := noBr_of_safe hp
  have hh0 : noBr h0 := noBr_of_safe hh
  have hpo0 : noBr po0 := noBr_of_safe hpo
  have hn0 : noBr n0 := noBr_of_safe hn
  simp only at hok
  split_ifs at hok with hmy hpg
  · obtain rfl := Except.ok.inj hok
    intro kv hkv
    rcases List.mem_append.mp hkv with hkv | hkv
    · exact baseTriple_safe hmf houf hsf kv hkv
    rcases List.mem_cons.mp hkv with rfl | hkv
    · exact pair_safe (by decide) hn0
    rcases List.mem_cons.mp hkv with rfl | hkv
    · exact pair_safe (by decide) (by decide)
    rcases List.mem_cons.mp hkv with rfl | hkv
    · exact pair_safe (by decide) (by decide)
    rcases List.mem_cons.mp hkv with rfl | hkv
    · exact pair_safe (by decide) (noBr_append (noBr_append (noBr_append
        (noBr_append (noBr_append (noBr_append (by decide) hh0) (by decide))
          hpo0) (by decide)) hn0) (by decide))
    rcases List.mem_cons.mp hkv with rfl | hkv
    · exact pair_safe (by decide) hu0
    rcases List.mem_cons.mp hkv with rfl | hkv
    · exact pair_safe (by decide) hp0
    rcases List.mem_cons.mp hkv with rfl | hkv
    · exact pair_safe (by decide) (by decide)
    cases hkv
  · obtain rfl := Except.ok.inj hok
    intro kv hkv
    rcases List.mem_append.mp hkv with hkv | hkv
    · exact baseTriple_safe hmf houf hsf kv hkv
    rcases List.mem_cons.mp hkv with rfl | hkv
    · exact pair_safe (by decide) hn0
    rcases List.mem_cons.mp hkv with rfl | hkv
    · exact pair_safe (by decide) (by decide)
    rcases List.mem_cons.mp hkv with rfl | hkv
    · exact pair_safe (by decide) (by decide)
    rcases List.mem_cons.mp hkv with rfl | hkv
    · exact pair_safe (by decide) (noBr_append (noBr_append (noBr_append
        (noBr_append (noBr_append (by decide) hh0) (by decide)) hpo0)
        (by decide)) hn0)
    rcases List.mem_cons.mp hkv with rfl | hkv
    · exact pair_safe (by decide) hu0
    rcases List.mem_cons.mp hkv with rfl | hkv
    · exact pair_safe (by decide) hp0
    rcases List.mem_cons.mp hkv with rfl | hkv
    · exact pair_safe (by decide) (by decide)
    cases hkv

theorem brZero_configWriteBody {pairs : List (String × String)}
    (hsafe : ∀ kv ∈ pairs, brZero kv.1.data = true ∧ noBr kv.2) :
    brZero (configWriteBody pairs).data = true := by
  unfold configWriteBody
  rw [string_data_append]
  exact brZero_append (brZero_kvLines hsafe) (by decide)

/-- The post-processing `replace` of morphrdb.py:111 removes exactly the
synthetic section header: what remains is the flat body. -/
theorem configStrip_eq {pairs : List (String × String)}
    (hsafe : ∀ kv ∈ pairs, brZero kv.1.data = true ∧ noBr kv.2) :
    pyReplace (configWrite pairs) "[root]\n" "" = configWriteBody pairs := by
  unfold pyReplace configWrite
  rw [string_data_append]
  have hdata : ("[root]\n" : String).data = '[' :: 'r' :: "oot]\n".data := by
    decide
  have hnocc : ¬ occursIn ("[root]\n".data) (configWriteBody pairs).data := by
    rw [hdata]
    exact not_occurs_bracket_r (brZero_configWriteBody hsafe)
  calc String.mk (replaceAll "[root]\n".data "".data
          ("[root]\n".data ++ (configWriteBody pairs).data))
      = String.mk (replaceAll "[root]\n".data "".data
          (configWriteBody pairs).data) := by
        rw [replaceAll_cons_pat _ _ (by decide)]
        rfl
    _ = String.mk (configWriteBody pairs).data := by
        rw [replaceAll_of_not_occurs _ _ hnocc]
    _ = configWriteBody pairs := string_mk_data _

/-- The flat body never contains the section marker. -/
theorem configBody_no_marker {pairs : List (String × String)}
    (hsafe : ∀ kv ∈ pairs, brZero kv.1.data = true ∧ noBr kv.2) :
    ¬ occursIn ("[root]".data) (configWriteBody pairs).data := by
  have hdata : ("[root]" : String).data = '[' :: 'r' :: "oot]".data := by decide
  rw [hdata]
  exact not_occurs_bracket_r (brZero_configWriteBody hsafe)

theorem occursIn_left {pat l : List Char} (x : List Char)
    (h : occursIn pat l) : occursIn pat (l ++ x) := by
  obtain ⟨s, t, rfl⟩ := h
  exact ⟨s, t ++ x, by simp⟩

theorem occursIn_right {pat l : List Char} (x : List Char)
    (h : occursIn pat l) : occursIn pat (x ++ l) := by
  obtain ⟨s, t, rfl⟩ := h
  exact ⟨x ++ s, t, by simp⟩

/-- Each option of the section appears verbatim, as a full `key=value` line,
in the serialized body. -/
theorem kvLines_occurs {pairs : List (String × String)} {kv : String × String}
    (h : kv ∈ pairs) :
    occursIn (kv.1 ++ "=" ++ kv.2 ++ "\n").data (kvLines pairs).data := by
  induction pairs with
  | nil => cases h
  | cons a rest ih =>
      obtain ⟨k, v⟩ := a
      rcases List.mem_cons.mp h with rfl | h
      · exact ⟨[], (kvLines rest).data, by
          show (kvLines (((k, v).1, (k, v).2) :: rest)).data = _
          simp [kvLines, string_data_append]⟩
      · show occursIn _ ((k ++ "=" ++ v ++ "\n" ++ kvLines rest)).data
        rw [string_data_append]
        exact occursIn_right _ (ih h)

theorem string_append_len (a b : String) :
    (a ++ b).length = a.length + b.length := by
  show (a ++ b).data.length = a.data.length + b.data.length
  rw [string_data_append, List.length_append]

theorem string_append_ne_of_len {b c : String} (a : String)
    (h : b.length ≠ c.length) : a ++ b ≠ a ++ c := by
  intro he
  have := congrArg String.length he
  rw [string_append_len, string_append_len] at this
  omega

/-- Success-path reduction of the MorphRDB mapping run: a valid serialization
and a well-formed credential bundle yield the stripped artifact on disk, one
launched engine command, and the container run's outcome. -/
theorem morphRun_ok {env : Env} {fs : Option String}
    {m o ser sf : String} {u p h po n t : Option String}
    {pairs : List (String × String)}
    (hser : morphSerialization ser = .ok sf)
    (hok : morphConfigPairs m o sf u p h po n t = .ok pairs) :
    morphExecuteMappingFS env fs m o ser u p h po n t =
      (some (pyReplace (configWrite pairs) "[root]\n" ""),
       [morphCmd env.totalMemory], .ok env.runResult) := by
  unfold morphExecuteMappingFS
  simp only [hser, hok]
  rfl

/-- An unsupported serialization aborts the MorphRDB mapping run before any
file write and before any launch. -/
theorem morphRun_serErr {env : Env} {fs : Option String}
    {m o ser : String} {u p h po n t : Option String} {e : PyError}
    (hser : morphSerialization ser = .error e) :
    morphExecuteMappingFS env fs m o ser u p h po n t = (fs, [], .error e) := by
  unfold morphExecuteMappingFS
  rw [hser]

/-- A config-generation error aborts the MorphRDB mapping run before any file
write and before any launch. -/
theorem morphRun_cfgErr {env : Env} {fs : Option String}
    {m o ser sf : String} {u p h po n t : Option String} {e : PyError}
    (hser : morphSerialization ser = .ok sf)
    (hbad : morphConfigPairs m o sf u p h po n t = .error e) :
    morphExecuteMappingFS env fs m o ser u p h po n t = (fs, [], .error e) := by
  unfold morphExecuteMappingFS
  simp only [hser, hbad]

/-- With any credential field missing, only the three base options are
generated. -/
theorem morphConfigPairs_missing {m o sf : String} {u p h po n t : Option String}
    (hmiss : u = none ∨ p = none ∨ h = none ∨ po = none ∨ n = none ∨ t = none) :
    morphConfigPairs m o sf u p h po n t =
      .ok [("mappingdocument.file.path", ospath_join "shared" (ospath_basename m)),
           ("output.file.path", ospath_join "shared" (ospath_basename o)),
           ("output.rdflanguage", sf)] := by
  unfold morphConfigPairs
  rcases u with _ | u0
  · rfl
  rcases p with _ | p0
  · rfl
  rcases h with _ | h0
  · rfl
  rcases po with _ | po0
  · rfl
  rcases n with _ | n0
  · rfl
  rcases t with _ | t0
  · rfl
  rcases hmiss with hh | hh | hh | hh | hh | hh <;> cases hh

/-- With a full credential bundle and an unrecognized database kind, config
generation raises `ValueError`. -/
theorem morphConfigPairs_badType {m o sf : String} {u0 p0 h0 po0 n0 t0 : String}
    (hne1 : t0 ≠ "MySQL") (hne2 : t0 ≠ "PostgreSQL") :
    morphConfigPairs m o sf (some u0) (some p0) (some h0) (some po0) (some n0)
        (some t0) =
      .error (.valueError ("Unknown RDB type: \"" ++ t0 ++ "\"")) := by
  unfold morphConfigPairs
  simp only [if_neg hne1, if_neg hne2]

/-- The serialization option is always among the generated pairs. -/
theorem morphConfigPairs_mem_lang {m o sf : String} {u p h po n t : Option String}
    {pairs : List (String × String)}
    (hok : morphConfigPairs m o sf u p h po n t = .ok pairs) :
    ("output.rdflanguage", sf) ∈ pairs := by
  unfold morphConfigPairs at hok
  rcases u with _ | u0
  · obtain rfl := Except.ok.inj hok; simp
  rcases p with _ | p0
  · obtain rfl := Except.ok.inj hok; simp
  rcases h with _ | h0
  · obtain rfl := Except.ok.inj hok; simp
  rcases po with _ | po0
  · obtain rfl := Except.ok.inj hok; simp
  rcases n with _ | n0
  · obtain rfl := Except.ok.inj hok; simp
  rcases t with _ | t0
  · obtain rfl := Except.ok.inj hok; simp
  simp only at hok
  split_ifs at hok
  · obtain rfl := Except.ok.inj hok; simp
  · obtain rfl := Except.ok.inj hok; simp

theorem key_not_db {k v : String} (h1 : strStartsWith k "database." = false)
    (h2 : k ≠ "no_of_database") :
    ¬ strStartsWith (k, v).1 "database." = true ∧ (k, v).1 ≠ "no_of_database" :=
  ⟨(fun hc => by rw [show (k, v).1 = k from rfl, h1] at hc; cases hc), h2⟩

theorem int_mem_burpArguments (m : String) (ouf : Option String) (b : Int) :
    PyVal.int b ∈ burpBuildArguments m ouf (some b) := by
  unfold burpBuildArguments
  cases ouf <;> simp

/-- C1 counterexample: the claim says every adapter rejects an unsupported
serialization format before any process is launched, but BURP never inspects
its serialization parameter: with format `turtle` the engine is launched
(one command, outcome of the run) instead of failing at prepare-time. -/
theorem c1_counterexample :
    (burpExecuteMapping ⟨100, 0, true⟩ false "map.rml" "turtle" none none).1.length
        = 1 ∧
    (burpExecuteMapping ⟨100, 0, true⟩ false "map.rml" "turtle" none none).2
        = .ok true := by
  constructor <;> decide

/-- C1 (amended): only MorphRDB enforces the closed serialization enumeration:
for any serialization outside {nquads, ntriples}, `execute_mapping` raises
`NotImplementedError` at prepare-time, before any config artifact is written
(the file state is unchanged) and before any process is launched (no command
issued).  BURP ignores its serialization parameter and launches regardless. -/
theorem c1_theorem (env : Env) (fs : Option String) (m o ser : String)
    (u p h po n t : Option String)
    (h1 : ser ≠ "nquads") (h2 : ser ≠ "ntriples") :
    morphExecuteMappingFS env fs m o ser u p h po n t =
      (fs, [], .error (.notImplementedError
        ("Unsupported serialization: \"" ++ ser ++ "\""))) ∧
    ∀ outf bi, (burpExecuteMapping env false m ser outf bi).1 =
      (burpExecute env false (burpBuildArguments m outf bi)).1 := by
  constructor
  · refine morphRun_serErr ?_
    unfold morphSerialization
    rw [if_neg h1, if_neg h2]
  · intro outf bi
    rfl

/-- C1 witness: the amended theorem applied to the serialization `turtle`. -/
theorem c1_witness :
    morphExecuteMappingFS ⟨100, 0, true⟩ none "map.rml" "out.nq" "turtle"
        none none none none none none =
      (none, [], .error (.notImplementedError
        ("Unsupported serialization: \"turtle\""))) ∧
    ∀ outf bi, (burpExecuteMapping ⟨100, 0, true⟩ false "map.rml" "turtle" outf bi).1 =
      (burpExecute ⟨100, 0, true⟩ false (burpBuildArguments "map.rml" outf bi)).1 :=
  c1_theorem ⟨100, 0, true⟩ none "map.rml" "out.nq" "turtle"
    none none none none none none (by decide) (by decide)

/-- C2 (code bug): the claim says every adapter recovers a run that exceeds
the timeout limit by catching the timeout exception and returning `false`.
BURP does (its inner method is decorated with `timeout(TIMEOUT)`), but
morphrdb.py:32 lacks the decorator: a run of `TIMEOUT + 1` seconds raises
nothing, so MorphRDB's `execute` returns the run's own result (`true` here)
instead of `false` — the `except TimeoutError` branch at morphrdb.py:48 is
dead code. -/
theorem c2_theorem :
    TIMEOUT < TIMEOUT + 1 ∧
    morphExecute ⟨100, TIMEOUT + 1, true⟩ [] = ([morphCmd 100], .ok true) ∧
    burpExecute ⟨100, TIMEOUT + 1, true⟩ false [] =
      ([burpBuildCmd 100 false ""], .ok false) := by
  refine ⟨Nat.lt_succ_self _, rfl, by decide⟩

/-- C3: if any of the six credential fields is missing, the generated config
has no `database.*` key and no `no_of_database` key, and the invocation still
proceeds: the engine command is launched and the run outcome is returned. -/
theorem c3_theorem (env : Env) (fs : Option String) (m o ser : String)
    (u p h po n t : Option String)
    (hser : ser = "nquads" ∨ ser = "ntriples")
    (hmiss : u = none ∨ p = none ∨ h = none ∨ po = none ∨ n = none ∨ t = none) :
    (∀ sf pairs, morphConfigPairs m o sf u p h po n t = .ok pairs →
       ∀ kv ∈ pairs, ¬ strStartsWith kv.1 "database." = true ∧
         kv.1 ≠ "no_of_database") ∧
    (morphExecuteMappingFS env fs m o ser u p h po n t).2.1 =
      [morphCmd env.totalMemory] ∧
    (morphExecuteMappingFS env fs m o ser u p h po n t).2.2 =
      .ok env.runResult := by
  refine ⟨?_, ?_⟩
  · intro sf pairs hok kv hkv
    rw [morphConfigPairs_missing hmiss] at hok
    obtain rfl := Except.ok.inj hok
    rcases List.mem_cons.mp hkv with rfl | hkv
    · exact key_not_db (by decide) (by decide)
    rcases List.mem_cons.mp hkv with rfl | hkv
    · exact key_not_db (by decide) (by decide)
    rcases List.mem_cons.mp hkv with rfl | hkv
    · exact key_not_db (by decide) (by decide)
    cases hkv
  · have hser2 : ∃ sf, morphSerialization ser = .ok sf := by
      rcases hser with rfl | rfl
      · exact ⟨"N-QUADS", rfl⟩
      · exact ⟨"N-TRIPLE", rfl⟩
    obtain ⟨sf, hser2⟩ := hser2
    rw [morphRun_ok hser2 (morphConfigPairs_missing hmiss)]
    exact ⟨rfl, rfl⟩

/-- C3 witness: password omitted, serialization `nquads`. -/
theorem c3_witness :
    (∀ sf pairs, morphConfigPairs "map.ttl" "out.nq" sf (some "user") none
        (some "db.example.org") (some "3306") (some "mydb") (some "MySQL")
        = .ok pairs →
       ∀ kv ∈ pairs, ¬ strStartsWith kv.1 "database." = true ∧
         kv.1 ≠ "no_of_database") ∧
    (morphExecuteMappingFS ⟨100, 0, true⟩ none "map.ttl" "out.nq" "nquads"
        (some "user") none (some "db.example.org") (some "3306") (some "mydb")
        (some "MySQL")).2.1 = [morphCmd 100] ∧
    (morphExecuteMappingFS ⟨100, 0, true⟩ none "map.ttl" "out.nq" "nquads"
        (some "user") none (some "db.example.org") (some "3306") (some "mydb")
        (some "MySQL")).2.2 = .ok true :=
  c3_theorem ⟨100, 0, true⟩ none "map.ttl" "out.nq" "nquads"
    (some "user") none (some "db.example.org") (some "3306") (some "mydb")
    (some "MySQL") (Or.inl rfl) (Or.inr (Or.inl rfl))

/-- C4: for every run that reaches config generation (with bracket-, newline-
and percent-free path basenames and credential values, the shapes the adapter
is exercised with), the artifact finally on disk is exactly the flat
`key=value` body — the synthetic `[root]` header written by the section-based
generator has been stripped — and the marker `[root]` occurs nowhere in it. -/
theorem c4_theorem (env : Env) (fs : Option String) (m o ser sf : String)
    (u p h po n t : Option String) (pairs : List (String × String))
    (hser : morphSerialization ser = .ok sf)
    (hok : morphConfigPairs m o sf u p h po n t = .ok pairs)
    (hm : safeVal (ospath_basename m) = true)
    (ho : safeVal (ospath_basename o) = true)
    (hu : safeOpt u = true) (hp : safeOpt p = true) (hh : safeOpt h = true)
    (hpo : safeOpt po = true) (hn : safeOpt n = true) (ht : safeOpt t = true) :
    (morphExecuteMappingFS env fs m o ser u p h po n t).1 =
      some (configWriteBody pairs) ∧
    ¬ occursIn ("[root]".data) (configWriteBody pairs).data := by
  have hsf : noBr sf := by
    rcases morphSerialization_ok hser with rfl | rfl <;> decide
  have hsafe := morphConfigPairs_safe hm ho hsf hu hp hh hpo hn ht hok
  constructor
  · rw [morphRun_ok hser hok]
    simp only [configStrip_eq hsafe]
  · exact configBody_no_marker hsafe

/-- C4 witness: a PostgreSQL-backed request with concrete safe values. -/
theorem c4_witness :
    (morphExecuteMappingFS ⟨100, 0, true⟩ (some "stale") "map.ttl" "out.nq"
        "nquads" (some "user") (some "secret") (some "db.example.org")
        (some "5432") (some "mydb") (some "PostgreSQL")).1 =
      some (configWriteBody
        [("mappingdocument.file.path", "shared/map.ttl"),
         ("output.file.path", "shared/out.nq"),
         ("output.rdflanguage", "N-QUADS"),
         ("database.name[0]", "mydb"),
         ("database.driver[0]", "org.postgresql.Driver"),
         ("database.type[0]", "postgresql"),
         ("database.url[0]", "jdbc:postgresql://db.example.org:5432/mydb"),
         ("database.user[0]", "user"),
         ("database.pwd[0]", "secret"),
         ("no_of_database", "1")]) ∧
    ¬ occursIn ("[root]".data) (configWriteBody
        [("mappingdocument.file.path", "shared/map.ttl"),
         ("output.file.path", "shared/out.nq"),
         ("output.rdflanguage", "N-QUADS"),
         ("database.name[0]", "mydb"),
         ("database.driver[0]", "org.postgresql.Driver"),
         ("database.type[0]", "postgresql"),
         ("database.url[0]", "jdbc:postgresql://db.example.org:5432/mydb"),
         ("database.user[0]", "user"),
         ("database.pwd[0]", "secret"),
         ("no_of_database", "1")]).data :=
  c4_theorem ⟨100, 0, true⟩ (some "stale") "map.ttl" "out.nq" "nquads"
    "N-QUADS" (some "user") (some "secret") (some "db.example.org")
    (some "5432") (some "mydb") (some "PostgreSQL")
    [("mappingdocument.file.path", "shared/map.ttl"),
     ("output.file.path", "shared/out.nq"),
     ("output.rdflanguage", "N-QUADS"),
     ("database.name[0]", "mydb"),
     ("database.driver[0]", "org.postgresql.Driver"),
     ("database.type[0]", "postgresql"),
     ("database.url[0]", "jdbc:postgresql://db.example.org:5432/mydb"),
     ("database.user[0]", "user"),
     ("database.pwd[0]", "secret"),
     ("no_of_database", "1")]
    rfl rfl (by decide) (by decide) (by decide) (by decide)
    (by decide) (by decide) (by decide) (by decide)

/-- C5: both adapters size the engine heap — the value passed to both `-Xmx`
and `-Xms` — as `int(total_memory * 1/2)`, i.e. half of total system memory
(the Nat division embedding is exact for totals below `2 ^ 53` bytes, where
the Python float product is exact). -/
theorem c5_theorem (total : Nat) (htotal : total < 2 ^ 53) (verbose : Bool)
    (joined : String) :
    max_heap total = total / 2 ∧
    burpBuildCmd total verbose joined =
      "java -Xmx" ++ toString (total / 2) ++ " -Xms" ++ toString (total / 2)
        ++ " -jar burp/burp.jar"
        ++ (if verbose then " -vvvvvvvvvvvvv" else "") ++ " " ++ joined ∧
    morphCmd total =
      "java -Xmx" ++ toString (total / 2) ++ " -Xms" ++ toString (total / 2)
        ++ " " ++ "-cp .:morph-rdb-dist-3.12.6.jar:dependency/* "
        ++ "es.upm.fi.dia.oeg.morph.r2rml.rdb.engine.MorphRDBRunner "
        ++ "/data config.properties" :=
  ⟨rfl, rfl, rfl⟩

/-- C5 witness: an 8 GiB host. -/
theorem c5_witness :
    8589934592 < 2 ^ 53 ∧
    (max_heap 8589934592 = 8589934592 / 2 ∧
     burpBuildCmd 8589934592 false "-m /data/shared/map.rml" =
       "java -Xmx" ++ toString (8589934592 / 2) ++ " -Xms"
         ++ toString (8589934592 / 2) ++ " -jar burp/burp.jar"
         ++ (if false then " -vvvvvvvvvvvvv" else "")
         ++ " " ++ "-m /data/shared/map.rml" ∧
     morphCmd 8589934592 =
       "java -Xmx" ++ toString (8589934592 / 2) ++ " -Xms"
         ++ toString (8589934592 / 2)
         ++ " " ++ "-cp .:morph-rdb-dist-3.12.6.jar:dependency/* "
         ++ "es.upm.fi.dia.oeg.morph.r2rml.rdb.engine.MorphRDBRunner "
         ++ "/data config.properties") :=
  ⟨by decide, c5_theorem 8589934592 (by decide) false "-m /data/shared/map.rml"⟩

/-- C6: with all six credential fields present and a database kind outside
{MySQL, PostgreSQL}, the MorphRDB invocation fails with `ValueError` and the
failure precedes everything observable: the config file state is unchanged and
no process is launched. -/
theorem c6_theorem (env : Env) (fs : Option String) (m o ser : String)
    (u0 p0 h0 po0 n0 t0 : String)
    (hser : ser = "nquads" ∨ ser = "ntriples")
    (hne1 : t0 ≠ "MySQL") (hne2 : t0 ≠ "PostgreSQL") :
    morphExecuteMappingFS env fs m o ser (some u0) (some p0) (some h0)
        (some po0) (some n0) (some t0) =
      (fs, [], .error (.valueError ("Unknown RDB type: \"" ++ t0 ++ "\""))) := by
  have hser2 : ∃ sf, morphSerialization ser = .ok sf := by
    rcases hser with rfl | rfl
    · exact ⟨"N-QUADS", rfl⟩
    · exact ⟨"N-TRIPLE", rfl⟩
  obtain ⟨sf, hser2⟩ := hser2
  exact morphRun_cfgErr hser2 (morphConfigPairs_badType hne1 hne2)

/-- C6 witness: database kind `SQLite`. -/
theorem c6_witness :
    morphExecuteMappingFS ⟨100, 0, true⟩ none "map.ttl" "out.nq" "nquads"
        (some "user") (some "secret") (some "db.example.org") (some "5432")
        (some "mydb") (some "SQLite") =
      (none, [],
       .error (.valueError ("Unknown RDB type: \"" ++ "SQLite" ++ "\""))) :=
  c6_theorem ⟨100, 0, true⟩ none "map.ttl" "out.nq" "nquads"
    "user" "secret" "db.example.org" "5432" "mydb" "SQLite"
    (Or.inl rfl) (by decide) (by decide)

/-- C7: preparation is deterministic.  For any supported serialization whose
config generation succeeds, the MorphRDB run produces the same final artifact
content, launched command and outcome whatever the config file held before —
regeneration overwrites, it never appends — and BURP's argument list is a pure
function of the request, so identical requests get identical argument
lists. -/
theorem c7_theorem (env : Env) (m o ser sf : String)
    (u p h po n t : Option String) (pairs : List (String × String))
    (outf : Option String) (bi : Option Int)
    (hser : morphSerialization ser = .ok sf)
    (hok : morphConfigPairs m o sf u p h po n t = .ok pairs) :
    (∀ fs0 : Option String,
      morphExecuteMappingFS env fs0 m o ser u p h po n t =
        (some (pyReplace (configWrite pairs) "[root]\n" ""),
         [morphCmd env.totalMemory], .ok env.runResult)) ∧
    burpBuildArguments m outf bi = burpBuildArguments m outf bi :=
  ⟨fun fs0 => morphRun_ok hser hok, rfl⟩

/-- C7 witness: rerunning over a file that already holds a previous artifact
yields the same bytes as running over an absent file. -/
theorem c7_witness :
    morphExecuteMappingFS ⟨100, 0, true⟩ (some "stale artifact") "map.ttl"
        "out.nq" "ntriples" none none none none none none =
      (some (pyReplace (configWrite
          [("mappingdocument.file.path", "shared/map.ttl"),
           ("output.file.path", "shared/out.nq"),
           ("output.rdflanguage", "N-TRIPLE")]) "[root]\n" ""),
       [morphCmd 100], .ok true) :=
  (c7_theorem ⟨100, 0, true⟩ "map.ttl" "out.nq" "ntriples" "N-TRIPLE"
    none none none none none none
    [("mappingdocument.file.path", "shared/map.ttl"),
     ("output.file.path", "shared/out.nq"),
     ("output.rdflanguage", "N-TRIPLE")]
    none none rfl rfl).1 (some "stale artifact")

/-- C8: the adapter translates the canonical serialization tokens into
Morph-RDB's vocabulary — `nquads` to `N-QUADS` and `ntriples` to `N-TRIPLE` —
and the translated token is written as a full `output.rdflanguage=...` line in
the generated config artifact. -/
theorem c8_theorem (m o sf : String) (u p h po n t : Option String)
    (pairs : List (String × String))
    (hok : morphConfigPairs m o sf u p h po n t = .ok pairs) :
    morphSerialization "nquads" = .ok "N-QUADS" ∧
    morphSerialization "ntriples" = .ok "N-TRIPLE" ∧
    ("output.rdflanguage", sf) ∈ pairs ∧
    occursIn ("output.rdflanguage=" ++ sf ++ "\n").data
      (configWrite pairs).data := by
  refine ⟨rfl, rfl, morphConfigPairs_mem_lang hok, ?_⟩
  have h1 := kvLines_occurs (morphConfigPairs_mem_lang hok)
  have hs : ("output.rdflanguage=" : String) = "output.rdflanguage" ++ "=" := by
    decide
  rw [hs]
  show occursIn _ ("[root]\n" ++ (kvLines pairs ++ "\n")).data
  rw [string_data_append, string_data_append]
  exact occursIn_right _ (occursIn_left _ h1)

/-- C8 witness: both canonical tokens at a concrete credential-free request. -/
theorem c8_witness :
    morphSerialization "nquads" = .ok "N-QUADS" ∧
    morphSerialization "ntriples" = .ok "N-TRIPLE" ∧
    ("output.rdflanguage", "N-QUADS") ∈
      [("mappingdocument.file.path", "shared/map.ttl"),
       ("output.file.path", "shared/out.nq"),
       ("output.rdflanguage", "N-QUADS")] ∧
    occursIn ("output.rdflanguage=" ++ "N-QUADS" ++ "\n").data
      (configWrite
        [("mappingdocument.file.path", "shared/map.ttl"),
         ("output.file.path", "shared/out.nq"),
         ("output.rdflanguage", "N-QUADS")]).data :=
  c8_theorem "map.ttl" "out.nq" "N-QUADS" none none none none none none
    [("mappingdocument.file.path", "shared/map.ttl"),
     ("output.file.path", "shared/out.nq"),
     ("output.rdflanguage", "N-QUADS")] rfl

/-- C9: adapter construction is idempotent for both adapters: constructing
over any directory state succeeds, constructing again over the resulting state
succeeds with the same directory state and the same volume bindings, and the
declared bindings contain no duplicates. -/
theorem c9_theorem (dirs : List String) (dp : String) :
    (∃ d1, burpInit dirs dp =
        .ok (d1, [dp ++ "/burp:/data", dp ++ "/shared:/data/shared"]) ∧
      burpInit d1 dp =
        .ok (d1, [dp ++ "/burp:/data", dp ++ "/shared:/data/shared"]) ∧
      [dp ++ "/burp:/data", dp ++ "/shared:/data/shared"].Nodup) ∧
    (∃ d2, morphInit dirs dp =
        .ok (d2, [dp ++ "/shared:/data/shared", dp ++ "/morphrdb:/data"]) ∧
      morphInit d2 dp =
        .ok (d2, [dp ++ "/shared:/data/shared", dp ++ "/morphrdb:/data"]) ∧
      [dp ++ "/shared:/data/shared", dp ++ "/morphrdb:/data"].Nodup) := by
  have hnodupB : [dp ++ "/burp:/data", dp ++ "/shared:/data/shared"].Nodup := by
    refine List.nodup_cons.mpr ⟨?_, List.nodup_singleton _⟩
    intro hmem2
    exact string_append_ne_of_len dp (by decide) (List.mem_singleton.mp hmem2)
  have hnodupM : [dp ++ "/shared:/data/shared", dp ++ "/morphrdb:/data"].Nodup := by
    refine List.nodup_cons.mpr ⟨?_, List.nodup_singleton _⟩
    intro hmem2
    exact string_append_ne_of_len dp (by decide) (List.mem_singleton.mp hmem2)
  constructor
  · by_cases hmem : ospath_join dp "burp" ∈ dirs
    · refine ⟨dirs, ?_, ?_, hnodupB⟩ <;>
        · unfold burpInit makedirs
          rw [if_pos hmem]
          rfl
    · refine ⟨dirs ++ [ospath_join dp "burp"], ?_, ?_, hnodupB⟩
      · unfold burpInit makedirs
        rw [if_neg hmem]
      · unfold burpInit makedirs
        rw [if_pos (List.mem_append.mpr (Or.inr (List.mem_singleton.mpr rfl)))]
        rfl
  · by_cases hmem : ospath_join dp "morphrdb" ∈ dirs
    · refine ⟨dirs, ?_, ?_, hnodupM⟩ <;>
        · unfold morphInit makedirs
          rw [if_pos hmem]
          rfl
    · refine ⟨dirs ++ [ospath_join dp "morphrdb"], ?_, ?_, hnodupM⟩
      · unfold morphInit makedirs
        rw [if_neg hmem]
      · unfold morphInit makedirs
        rw [if_pos (List.mem_append.mpr (Or.inr (List.mem_singleton.mpr rfl)))]
        rfl

/-- C10: BURP's `base_iri` parameter is declared `Optional[int]` and appended
unconverted to the otherwise string-valued argument list, so for every call
with a non-`None` base IRI the command-string join raises `TypeError` before
any launch; `execute` only catches `TimeoutError`, so the call crashes with
the uncaught `TypeError` instead of returning a boolean outcome. -/
theorem c10_theorem (env : Env) (verbose : Bool) (m ser : String)
    (outf : Option String) (b : Int) :
    burpExecuteMapping env verbose m ser outf (some b) =
      ([], .error .typeError) := by
  unfold burpExecuteMapping burpExecute burpExecuteWithTimeout
  rw [joinSpace_error_of_int (int_mem_burpArguments m outf b)]

end BenchExec
